import Mathlib

/-!
Shallow embedding of the MT5 WebSocket tick-distribution system
(files mt5_websocket_server.py and api_server.py) for verifying its
natural-language specification.

Modelling conventions:
* A subscriber handle (a websocket object in Python) is a natural number;
  identity is reference identity, matching the spec.
* A Python dict is an association list with unique keys in practice;
  dictGet reads the first matching entry, dictSet updates the first
  matching entry or appends, dictDel removes the key.
* A Python set of handles is a duplicate-free list: add inserts only when
  absent, discard removes every occurrence.
* Float bid/ask values are modelled as integers: the code only ever
  compares them for equality, so only decidable equality matters.
* The MetaTrader provider (mt5.symbol_info, mt5.symbol_select,
  mt5.symbol_info_tick) is an oracle passed as a parameter.
-/

set_option autoImplicit false

/-- Tick value object produced by get_tick_data: symbol, bid, ask, last,
volume, ISO time string and spread.  Numeric fields are modelled as Int. -/
structure TickData where
  symbol : String
  bid : Int
  ask : Int
  lastPrice : Int
  volume : Int
  time : String
  spread : Int
deriving DecidableEq, Repr

/-- Outbound JSON messages sent to a single connection. -/
inductive Msg where
  | error (message : String)
  | subscription (symbol status : String)
  | pong
  | connectionAck
deriving DecidableEq, Repr

/-- A subscriber handle: opaque reference to one open connection. -/
abbrev Handle := Nat

/-- The subscription registry: symbol keyed map to the handles subscribed
to it (subscribed_symbols in mt5_websocket_server.py, manager.subscriptions
in api_server.py). -/
abbrev Registry := List (String × List Handle)

/-- Python dict read: value stored under key s, if present. -/
def dictGet (reg : Registry) (s : String) : Option (List Handle) :=
  match reg with
  | [] => none
  | e :: rest => if e.1 = s then some e.2 else dictGet rest s

/-- Python dict write: replace the value at key s, appending the key when
absent. -/
def dictSet (reg : Registry) (s : String) (hs : List Handle) : Registry :=
  match reg with
  | [] => [(s, hs)]
  | e :: rest => if e.1 = s then (s, hs) :: rest else e :: dictSet rest s hs

/-- Python del: remove key s from the dict. -/
def dictDel (reg : Registry) (s : String) : Registry :=
  match reg with
  | [] => []
  | e :: rest => if e.1 = s then dictDel rest s else e :: dictDel rest s

/-- The handle set currently subscribed to s (empty when the key is
absent). -/
def subscribers (reg : Registry) (s : String) : List Handle :=
  (dictGet reg s).getD []

/-- Oracle for the MetaTrader provider boundary: whether symbol_info
returns an object, whether that object is visible, and whether
symbol_select succeeds. -/
structure Provider where
  known : String → Bool
  visible : String → Bool
  selectOk : String → Bool

/-- MT5WebSocketServer.subscribe_symbol: ensures the symbol key exists,
adds the websocket to its set, then checks the provider; on an unknown or
unselectable symbol it replies with an error and returns False, otherwise
it replies with the subscribed acknowledgment and returns True.  Result:
(new registry, replies sent to the websocket, return value). -/
def subscribe_symbol (p : Provider) (reg : Registry) (w : Handle) (s : String) :
    Registry × List Msg × Bool :=
  let reg1 := if (dictGet reg s).isNone then dictSet reg s [] else reg
  let hs := (dictGet reg1 s).getD []
  let reg2 := if w ∈ hs then reg1 else dictSet reg1 s (hs ++ [w])
  let res : List Msg × Bool :=
    if p.known s = false then
      ([Msg.error ("Symbol " ++ s ++ " not found")], false)
    else if p.visible s = false && p.selectOk s = false then
      ([Msg.error ("Failed to select symbol " ++ s)], false)
    else
      ([Msg.subscription s "subscribed"], true)
  (reg2, res)

/-- MT5WebSocketServer.unsubscribe_symbol: discard the websocket from the
symbol's set when the key exists, delete the key when the set becomes
empty, and always reply with the unsubscribed acknowledgment. -/
def unsubscribe_symbol (reg : Registry) (w : Handle) (s : String) :
    Registry × List Msg :=
  let reg' :=
    match dictGet reg s with
    | none => reg
    | some hs =>
        let hs' := hs.filter (fun v => v ≠ w)
        if hs' = [] then dictDel reg s else dictSet reg s hs'
  (reg', [Msg.subscription s "unsubscribed"])

/-- MT5WebSocketServer.unregister_client, registry part: discard the
websocket from every symbol's set and delete every key whose set becomes
empty. -/
def unregister_client (reg : Registry) (w : Handle) : Registry :=
  match reg with
  | [] => []
  | e :: rest =>
      if e.2.filter (fun v => v ≠ w) = [] then unregister_client rest w
      else (e.1, e.2.filter (fun v => v ≠ w)) :: unregister_client rest w

/-- MT5WebSocketServer.broadcast_tick: when the symbol has a handle set,
attempt delivery to each handle in it; handles whose send raises
ConnectionClosed are collected and, after the pass, unregistered one by
one.  The oracle fails tells which sends raise.  Result: (registry after
the pass, handles a delivery was attempted to, handles delivered to). -/
def broadcast_tick (fails : Handle → Bool) (reg : Registry) (s : String) :
    Registry × List Handle × List Handle :=
  match dictGet reg s with
  | none => (reg, [], [])
  | some hs =>
      let delivered := hs.filter (fun w => !(fails w))
      let disconnected := hs.filter (fun w => fails w)
      (disconnected.foldl unregister_client reg, hs, delivered)

/-- MT5WebSocketServer.tick_collector, one poll cycle: the symbols for
which get_tick_data is called are the registry keys whose looked-up handle
set is non-empty (an empty set is skipped by the continue). -/
def tick_collector_fetches (reg : Registry) : List String :=
  (reg.map Prod.fst).filter (fun s => !(subscribers reg s).isEmpty)

/-- MT5WebSocketServer.tick_collector, change detection for one fetched
tick of one symbol: broadcast and record the tick when there is no last
tick or bid or ask changed; otherwise keep the last tick and skip.
Result: (new last_ticks entry, whether a broadcast was issued). -/
def collectStep (lastTick : Option TickData) (t : TickData) :
    Option TickData × Bool :=
  match lastTick with
  | none => (some t, true)
  | some lt =>
      if lt.bid ≠ t.bid ∨ lt.ask ≠ t.ask then (some t, true)
      else (some lt, false)

/-- Runs collectStep over a sequence of consecutively fetched ticks for
one symbol, returning the final last_ticks entry and the broadcast ticks
in order. -/
def processTicks (lastTick : Option TickData) :
    List TickData → Option TickData × List TickData
  | [] => (lastTick, [])
  | t :: ts =>
      let r := collectStep lastTick t
      let rest := processTicks r.1 ts
      (rest.1, (if r.2 then [t] else []) ++ rest.2)

/-- Python truthiness of the symbol field: present and not the empty
string. -/
def truthy : Option String → Bool
  | none => false
  | some s => !(s == "")

/-- Python str() of the type field as interpolated into the unknown-type
error: None prints as the word None. -/
def pyStr : Option String → String
  | none => "None"
  | some t => t

/-- One inbound frame as handle_message sees it: text that fails JSON
parsing, text that parses to a non-object value (no .get attribute), or an
object with optional string type and symbol fields. -/
inductive Inbound where
  | notJson
  | nonObject
  | obj (msgType : Option String) (symbol : Option String)
deriving DecidableEq, Repr

/-- Outcome of handle_message: normal return with the new registry and the
replies sent, or an uncaught exception propagating to handle_client. -/
inductive HResult where
  | ok (reg : Registry) (replies : List Msg)
  | raises
deriving DecidableEq, Repr

/-- MT5WebSocketServer.handle_message: parse, dispatch on the type field;
subscribe and unsubscribe run only for a truthy symbol; ping answers pong;
any other type answers the unknown-type error.  Only json.JSONDecodeError
is caught, so a parsed non-object value raises AttributeError at
data.get. -/
def handle_message (p : Provider) (reg : Registry) (w : Handle) (m : Inbound) :
    HResult :=
  match m with
  | .notJson => .ok reg [Msg.error "Invalid JSON message"]
  | .nonObject => .raises
  | .obj ty sym =>
      if ty = some "subscribe" then
        if truthy sym then
          let r := subscribe_symbol p reg w (sym.getD "")
          .ok r.1 r.2.1
        else .ok reg []
      else if ty = some "unsubscribe" then
        if truthy sym then
          let r := unsubscribe_symbol reg w (sym.getD "")
          .ok r.1 r.2
        else .ok reg []
      else if ty = some "ping" then .ok reg [Msg.pong]
      else .ok reg [Msg.error ("Unknown message type: " ++ pyStr ty)]

/-- MT5WebSocketServer.handle_client keeps reading messages while
handle_message returns normally; an uncaught exception leaves the loop and
the finally block tears the connection down. -/
def connectionStaysOpen : HResult → Bool
  | .ok _ _ => true
  | .raises => false

/-- ConnectionManager.subscribe in api_server.py: create the key with an
empty list when absent, then append the websocket only when not already
present. -/
def api_subscribe (subs : Registry) (w : Handle) (s : String) : Registry :=
  let subs1 := if (dictGet subs s).isNone then dictSet subs s [] else subs
  let hs := (dictGet subs1 s).getD []
  if w ∈ hs then subs1 else dictSet subs1 s (hs ++ [w])

/-- Python list.remove: removes the first occurrence only. -/
def removeFirst : List Handle → Handle → List Handle
  | [], _ => []
  | v :: rest, w => if v = w then rest else v :: removeFirst rest w

/-- ConnectionManager.disconnect in api_server.py, subscriptions part: for
every key, when the websocket is in its list remove the first occurrence
and delete the key if the list became empty. -/
def api_disconnect (subs : Registry) (w : Handle) : Registry :=
  match subs with
  | [] => []
  | e :: rest =>
      if w ∈ e.2 then
        if removeFirst e.2 w = [] then api_disconnect rest w
        else (e.1, removeFirst e.2 w) :: api_disconnect rest w
      else e :: api_disconnect rest w

/-- One dispatch step of websocket_endpoint in api_server.py: subscribe
with a truthy symbol registers and always acknowledges (it also spawns a
send_tick_data task, not part of the reply stream modelled here);
unsubscribe replies only when the pair is currently present, and removes
the websocket without deleting an emptied key; ping answers pong; any
other type is silently ignored. -/
def websocket_endpoint_handle (subs : Registry) (w : Handle)
    (ty : Option String) (sym : Option String) : Registry × List Msg :=
  if ty = some "subscribe" then
    if truthy sym then
      let s := sym.getD ""
      (api_subscribe subs w s, [Msg.subscription s "subscribed"])
    else (subs, [])
  else if ty = some "unsubscribe" then
    if truthy sym then
      let s := sym.getD ""
      match dictGet subs s with
      | none => (subs, [])
      | some hs =>
          if w ∈ hs then
            (dictSet subs s (removeFirst hs w),
             [Msg.subscription s "unsubscribed"])
          else (subs, [])
    else (subs, [])
  else if ty = some "ping" then (subs, [Msg.pong])
  else (subs, [])

/-- One iteration of the send_tick_data loop in api_server.py: the loop
runs while the websocket is in manager.active_connections and calls
mt5_handler.get_tick_data(symbol) whenever the handler is connected — the
subscription registry is never consulted for the fetch decision. -/
def send_tick_data_iter_fetches (active : List Handle) (connected : Bool)
    (w : Handle) : Bool :=
  active.contains w && connected

/-- Change detection of send_tick_data in api_server.py for one fetch
result: when a tick was fetched and there is no last tick or bid or ask
changed, broadcast it and record it as last. -/
def send_tick_step (lastTick : Option TickData) (fetched : Option TickData) :
    Option TickData × Bool :=
  match fetched with
  | none => (lastTick, false)
  | some t =>
      match lastTick with
      | none => (some t, true)
      | some lt =>
          if t.bid ≠ lt.bid ∨ t.ask ≠ lt.ask then (some t, true)
          else (some lt, false)

/-- Runs send_tick_step over a sequence of fetch results, returning the
final last tick and the broadcast ticks in order. -/
def sendTickRun (lastTick : Option TickData) :
    List (Option TickData) → Option TickData × List TickData
  | [] => (lastTick, [])
  | f :: fs =>
      let r := send_tick_step lastTick f
      let rest := sendTickRun r.1 fs
      (rest.1, (if r.2 then f.toList else []) ++ rest.2)

/-- The registry invariant of the spec: a symbol key exists only while its
handle set is non-empty. -/
def registryInv (reg : Registry) : Prop :=
  ∀ e ∈ reg, e.2 ≠ []

/-- Provider oracle under which every symbol resolves and is visible. -/
def allKnownProvider : Provider := ⟨fun _ => true, fun _ => true, fun _ => true⟩

/-- Provider oracle under which symbol_info returns None for every
symbol. -/
def unknownSymbolProvider : Provider := ⟨fun _ => false, fun _ => true, fun _ => true⟩

/-- Sample tick. -/
def tick1 : TickData := ⟨"EURUSD", 11000, 11002, 11000, 1, "2024-01-01T00:00:00", 2⟩

/-- Sample tick with the same bid and ask as tick1 but different volume
and time. -/
def tick2 : TickData := ⟨"EURUSD", 11000, 11002, 11001, 2, "2024-01-01T00:00:01", 2⟩

/-- Sample tick whose bid differs from tick1. -/
def tick3 : TickData := ⟨"EURUSD", 11001, 11003, 11001, 1, "2024-01-01T00:00:02", 2⟩

/-! Helper lemmas about the dictionary primitives and the registry
operations. -/

theorem dictGet_dictSet_self (reg : Registry) (s : String) (hs : List Handle) :
    dictGet (dictSet reg s hs) s = some hs := by
  induction reg with
  | nil => simp [dictGet, dictSet]
  | cons e rest ih =>
      by_cases h : e.1 = s
      · simp [dictSet, h, dictGet]
      · simp [dictSet, h, dictGet, ih]

theorem dictSet_dictSet (reg : Registry) (s : String) (a b : List Handle) :
    dictSet (dictSet reg s a) s b = dictSet reg s b := by
  induction reg with
  | nil => simp [dictSet]
  | cons e rest ih =>
      by_cases h : e.1 = s
      · simp [dictSet, h]
      · simp [dictSet, h, ih]

theorem dictGet_dictDel_self (reg : Registry) (s : String) :
    dictGet (dictDel reg s) s = none := by
  induction reg with
  | nil => simp [dictDel, dictGet]
  | cons e rest ih =>
      by_cases h : e.1 = s
      · simp [dictDel, h, ih]
      · simp [dictDel, h, dictGet, ih]

theorem registryInv_dictSet (reg : Registry) (s : String) (hs : List Handle)
    (hinv : registryInv reg) (hne : hs ≠ []) : registryInv (dictSet reg s hs) := by
  induction reg with
  | nil => intro e he; simp [dictSet] at he; subst he; exact hne
  | cons a rest ih =>
      intro e he
      by_cases h : a.1 = s
      · rw [dictSet, if_pos h] at he
        rcases List.mem_cons.mp he with h1 | h1
        · subst h1; exact hne
        · exact hinv e (List.mem_cons_of_mem a h1)
      · rw [dictSet, if_neg h] at he
        rcases List.mem_cons.mp he with h1 | h1
        · subst h1; exact hinv e (List.mem_cons_self e rest)
        · exact ih (fun x hx => hinv x (List.mem_cons_of_mem a hx)) e h1

theorem registryInv_dictDel (reg : Registry) (s : String)
    (hinv : registryInv reg) : registryInv (dictDel reg s) := by
  induction reg with
  | nil => intro e he; simp [dictDel] at he
  | cons a rest ih =>
      intro e he
      by_cases h : a.1 = s
      · rw [dictDel, if_pos h] at he
        exact ih (fun x hx => hinv x (List.mem_cons_of_mem a hx)) e he
      · rw [dictDel, if_neg h] at he
        rcases List.mem_cons.mp he with h1 | h1
        · subst h1; exact hinv e (List.mem_cons_self e rest)
        · exact ih (fun x hx => hinv x (List.mem_cons_of_mem a hx)) e h1

/-- The registry produced by subscribe_symbol, independent of the provider
outcome: the pair is added up front, with the symbol key created when
absent. -/
theorem subscribe_reg_eq (p : Provider) (reg : Registry) (w : Handle) (s : String) :
    (subscribe_symbol p reg w s).1 =
      if w ∈ subscribers reg s then reg
      else dictSet reg s (subscribers reg s ++ [w]) := by
  cases h : dictGet reg s with
  | none =>
      simp [subscribe_symbol, subscribers, h, dictGet_dictSet_self, dictSet_dictSet]
  | some hs =>
      by_cases hw : w ∈ hs
      · simp [subscribe_symbol, subscribers, h, hw]
      · simp [subscribe_symbol, subscribers, h, hw]

/-- The registry produced by ConnectionManager.subscribe coincides with
the registry part of subscribe_symbol. -/
theorem api_subscribe_eq (subs : Registry) (w : Handle) (s : String) :
    api_subscribe subs w s =
      if w ∈ subscribers subs s then subs
      else dictSet subs s (subscribers subs s ++ [w]) := by
  cases h : dictGet subs s with
  | none =>
      simp [api_subscribe, subscribers, h, dictGet_dictSet_self, dictSet_dictSet]
  | some hs =>
      by_cases hw : w ∈ hs
      · simp [api_subscribe, subscribers, h, hw]
      · simp [api_subscribe, subscribers, h, hw]

/-- After subscribe_symbol the websocket is in the symbol's handle set,
whether or not the provider check succeeded. -/
theorem mem_subscribe_reg (p : Provider) (reg : Registry) (w : Handle) (s : String) :
    w ∈ subscribers (subscribe_symbol p reg w s).1 s := by
  rw [subscribe_reg_eq]
  by_cases hw : w ∈ subscribers reg s
  · simp [hw]
  · rw [if_neg hw]
    simp [subscribers, dictGet_dictSet_self]

/-- After unsubscribe_symbol the websocket is no longer in the symbol's
handle set. -/
theorem not_mem_unsubscribe_reg (reg : Registry) (w : Handle) (s : String) :
    w ∉ subscribers (unsubscribe_symbol reg w s).1 s := by
  cases h : dictGet reg s with
  | none => simp [unsubscribe_symbol, subscribers, h]
  | some hs =>
      by_cases hc : hs.filter (fun v => v ≠ w) = []
      · simp only [unsubscribe_symbol, h, if_pos hc]
        simp [subscribers, dictGet_dictDel_self]
      · simp only [unsubscribe_symbol, h, if_neg hc]
        simp only [subscribers, dictGet_dictSet_self, Option.getD_some]
        intro hmem
        rcases List.mem_filter.mp hmem with ⟨_, hdec⟩
        simp at hdec

theorem unregister_self_absent (reg : Registry) (w : Handle) :
    ∀ e ∈ unregister_client reg w, w ∉ e.2 := by
  induction reg with
  | nil => simp [unregister_client]
  | cons a rest ih =>
      intro e he
      by_cases hc : a.2.filter (fun v => v ≠ w) = []
      · rw [unregister_client, if_pos hc] at he
        exact ih e he
      · rw [unregister_client, if_neg hc] at he
        rcases List.mem_cons.mp he with h1 | h1
        · subst h1
          intro hmem
          rcases List.mem_filter.mp hmem with ⟨_, hdec⟩
          simp at hdec
        · exact ih e h1

theorem unregister_preserves_absent (reg : Registry) (u w : Handle)
    (h : ∀ e ∈ reg, w ∉ e.2) :
    ∀ e ∈ unregister_client reg u, w ∉ e.2 := by
  induction reg with
  | nil => simp [unregister_client]
  | cons a rest ih =>
      intro e he
      by_cases hc : a.2.filter (fun v => v ≠ u) = []
      · rw [unregister_client, if_pos hc] at he
        exact ih (fun x hx => h x (List.mem_cons_of_mem a hx)) e he
      · rw [unregister_client, if_neg hc] at he
        rcases List.mem_cons.mp he with h1 | h1
        · subst h1
          intro hmem
          exact h a (List.mem_cons_self a rest) (List.mem_of_mem_filter hmem)
        · exact ih (fun x hx => h x (List.mem_cons_of_mem a hx)) e h1

theorem foldl_unregister_absent (l : List Handle) (w : Handle) :
    ∀ (reg : Registry), (∀ e ∈ reg, w ∉ e.2) →
      ∀ e ∈ l.foldl unregister_client reg, w ∉ e.2 := by
  induction l with
  | nil => intro reg h; simpa using h
  | cons v rest ih =>
      intro reg h
      exact ih (unregister_client reg v) (unregister_preserves_absent reg v w h)

theorem foldl_unregister_mem (l : List Handle) (w : Handle) :
    ∀ (reg : Registry), w ∈ l → ∀ e ∈ l.foldl unregister_client reg, w ∉ e.2 := by
  induction l with
  | nil => intro reg hw; cases hw
  | cons v rest ih =>
      intro reg hw
      rcases List.mem_cons.mp hw with h1 | h1
      · subst h1
        exact foldl_unregister_absent rest w (unregister_client reg w)
          (unregister_self_absent reg w)
      · exact ih (unregister_client reg v) h1

theorem registryInv_unregister (reg : Registry) (w : Handle) :
    registryInv (unregister_client reg w) := by
  induction reg with
  | nil => intro e he; simp [unregister_client] at he
  | cons a rest ih =>
      intro e he
      by_cases hc : a.2.filter (fun v => v ≠ w) = []
      · rw [unregister_client, if_pos hc] at he
        exact ih e he
      · rw [unregister_client, if_neg hc] at he
        rcases List.mem_cons.mp he with h1 | h1
        · subst h1; exact hc
        · exact ih e h1

/-! Claim theorems. -/

/-- C1 (counterexample): with a provider that cannot resolve XYZ,
subscribe_symbol on the empty registry fails yet the registry is mutated:
the symbol key XYZ was added and the pair (handle 0, XYZ) is present
afterward, contrary to the claim that a failed subscribe leaves the
registry unchanged. -/
theorem C1_counterexample :
    (subscribe_symbol unknownSymbolProvider [] 0 "XYZ").2.2 = false ∧
    (subscribe_symbol unknownSymbolProvider [] 0 "XYZ").1 = [("XYZ", [0])] :=
  ⟨rfl, rfl⟩

/-- C1 (amended): subscribe fails exactly when the provider cannot resolve
the symbol, or the symbol is not visible and cannot be selected; on
failure the registration performed at entry remains in place — the handle
is in the symbol's handle set afterward, so the registry is mutated rather
than left unchanged. -/
theorem C1_subscribe_failure (p : Provider) (reg : Registry) (w : Handle)
    (s : String) :
    ((subscribe_symbol p reg w s).2.2 = false ↔
      (p.known s = false ∨ (p.visible s = false ∧ p.selectOk s = false))) ∧
    w ∈ subscribers (subscribe_symbol p reg w s).1 s := by
  refine ⟨?_, mem_subscribe_reg p reg w s⟩
  cases hk : p.known s <;> cases hv : p.visible s <;> cases hsel : p.selectOk s <;>
    simp [subscribe_symbol, hk, hv, hsel]

/-- C1 (witness): the amended statement instantiated at a concrete failed
subscribe. -/
theorem C1_witness :
    ((subscribe_symbol unknownSymbolProvider [("EURUSD", [1])] 0 "GBPUSD").2.2 = false ↔
      (unknownSymbolProvider.known "GBPUSD" = false ∨
        (unknownSymbolProvider.visible "GBPUSD" = false ∧
          unknownSymbolProvider.selectOk "GBPUSD" = false))) ∧
    0 ∈ subscribers
        (subscribe_symbol unknownSymbolProvider [("EURUSD", [1])] 0 "GBPUSD").1
        "GBPUSD" :=
  C1_subscribe_failure unknownSymbolProvider [("EURUSD", [1])] 0 "GBPUSD"

/-- C2 (amended): in one tick_collector poll cycle of the standalone
server, a symbol whose handle set is empty or absent is never fetched. -/
theorem C2_zero_subscribers_not_fetched (reg : Registry) (s : String)
    (h : subscribers reg s = []) :
    s ∉ tick_collector_fetches reg := by
  intro hmem
  simp only [tick_collector_fetches] at hmem
  rcases List.mem_filter.mp hmem with ⟨_, hp⟩
  rw [h] at hp
  simp at hp

/-- C2 (witness): a registry in which EURUSD has no subscribers, and the
conclusion that EURUSD is not fetched in that cycle. -/
theorem C2_witness :
    subscribers [("GBPUSD", [1])] "EURUSD" = [] ∧
    "EURUSD" ∉ tick_collector_fetches [("GBPUSD", [1])] :=
  ⟨rfl, C2_zero_subscribers_not_fetched [("GBPUSD", [1])] "EURUSD" rfl⟩

/-- C2 (counterexample): on the API transport, one iteration of the
send_tick_data loop issues a provider fetch whenever its websocket is in
active_connections and the handler is connected — the fetch decision never
consults the subscription registry, so the fetch occurs even in a state
where the symbol has zero subscribers. -/
theorem C2_counterexample :
    subscribers [] "EURUSD" = [] ∧
    send_tick_data_iter_fetches [0] true 0 = true :=
  ⟨rfl, rfl⟩

/-- C3 (counterexample): on the API transport an unsubscribe for a symbol
the connection never subscribed to produces no reply at all — the
unsubscribed acknowledgment the claim requires is missing. -/
theorem C3_counterexample :
    websocket_endpoint_handle [] 0 (some "unsubscribe") (some "EURUSD") =
      ([], []) := rfl

/-- C3 (amended): the standalone server always replies with the
unsubscribed acknowledgment, even when the pair is absent; the API
endpoint sends that reply only when the pair is currently present. -/
theorem C3_unsubscribe_reply (reg subs : Registry) (w : Handle) (s : String)
    (hs : List Handle) (h1 : dictGet subs s = some hs) (h2 : w ∈ hs)
    (h3 : s ≠ "") :
    (unsubscribe_symbol reg w s).2 = [Msg.subscription s "unsubscribed"] ∧
    (websocket_endpoint_handle subs w (some "unsubscribe") (some s)).2 =
      [Msg.subscription s "unsubscribed"] := by
  refine ⟨rfl, ?_⟩
  simp [websocket_endpoint_handle, truthy, h1, h2, h3]

/-- C3 (witness): the amended statement instantiated at a present pair on
both transports. -/
theorem C3_witness :
    (unsubscribe_symbol [] 0 "EURUSD").2 =
        [Msg.subscription "EURUSD" "unsubscribed"] ∧
    (websocket_endpoint_handle [("EURUSD", [0])] 0 (some "unsubscribe")
        (some "EURUSD")).2 = [Msg.subscription "EURUSD" "unsubscribed"] :=
  C3_unsubscribe_reply [] [("EURUSD", [0])] 0 "EURUSD" [0] rfl
    (by decide) (by decide)

/-- C4 (counterexample): on the API transport an inbound message with an
unrecognized type falls through every branch of websocket_endpoint and
gets no reply at all — no error naming the unknown type is sent. -/
theorem C4_counterexample :
    websocket_endpoint_handle [] 0 (some "frobnicate") none = ([], []) := rfl

/-- C4 (amended): for a type that is none of subscribe, unsubscribe, ping,
the standalone server replies with an error naming the type, leaves the
registry unchanged and keeps the connection open; the API endpoint ignores
the message silently (no reply, no state change). -/
theorem C4_unknown_type (p : Provider) (reg subs : Registry) (w : Handle)
    (t : String) (sym : Option String)
    (h1 : t ≠ "subscribe") (h2 : t ≠ "unsubscribe") (h3 : t ≠ "ping") :
    handle_message p reg w (.obj (some t) sym) =
      .ok reg [Msg.error ("Unknown message type: " ++ t)] ∧
    connectionStaysOpen (handle_message p reg w (.obj (some t) sym)) = true ∧
    websocket_endpoint_handle subs w (some t) sym = (subs, []) := by
  have hm : handle_message p reg w (.obj (some t) sym) =
      .ok reg [Msg.error ("Unknown message type: " ++ t)] := by
    simp [handle_message, h1, h2, h3, pyStr]
  refine ⟨hm, by rw [hm]; rfl, ?_⟩
  simp [websocket_endpoint_handle, h1, h2, h3]

/-- C4 (witness): the amended statement instantiated at a concrete unknown
type. -/
theorem C4_witness :
    handle_message allKnownProvider [] 0 (.obj (some "hello") none) =
      .ok [] [Msg.error ("Unknown message type: " ++ "hello")] ∧
    connectionStaysOpen
      (handle_message allKnownProvider [] 0 (.obj (some "hello") none)) = true ∧
    websocket_endpoint_handle [] 0 (some "hello") none = ([], []) :=
  C4_unknown_type allKnownProvider [] [] 0 "hello" none
    (by decide) (by decide) (by decide)

/-- C5 (confirmed): two consecutive fetched ticks with identical bid and
ask produce exactly one broadcast (the first) and the last seen tick stays
at the first; a second tick with a differing bid is broadcast with its own
values and becomes the last seen tick — on both the standalone
tick_collector and the API send_tick_data change detection. -/
theorem C5_coalescing (t1 t2 : TickData) :
    (t1.bid = t2.bid → t1.ask = t2.ask →
      processTicks none [t1, t2] = (some t1, [t1]) ∧
      sendTickRun none [some t1, some t2] = (some t1, [t1])) ∧
    (t1.bid ≠ t2.bid →
      processTicks none [t1, t2] = (some t2, [t1, t2]) ∧
      sendTickRun none [some t1, some t2] = (some t2, [t1, t2])) := by
  constructor
  · intro hb ha
    simp [processTicks, collectStep, sendTickRun, send_tick_step, hb, ha]
  · intro hb
    simp [processTicks, collectStep, sendTickRun, send_tick_step, hb, Ne.symm hb]

/-- C5 (witness): the statement instantiated at concrete ticks — tick2
repeats the bid and ask of tick1, tick3 changes the bid. -/
theorem C5_witness :
    (tick1.bid = tick2.bid ∧ tick1.ask = tick2.ask ∧
      processTicks none [tick1, tick2] = (some tick1, [tick1]) ∧
      sendTickRun none [some tick1, some tick2] = (some tick1, [tick1])) ∧
    (tick1.bid ≠ tick3.bid ∧
      processTicks none [tick1, tick3] = (some tick3, [tick1, tick3]) ∧
      sendTickRun none [some tick1, some tick3] = (some tick3, [tick1, tick3])) :=
  ⟨⟨rfl, rfl, (C5_coalescing tick1 tick2).1 rfl rfl⟩,
   ⟨by decide, (C5_coalescing tick1 tick3).2 (by decide)⟩⟩

/-- C6 (confirmed): in one broadcast pass every handle in the symbol's set
gets a delivery attempt, every non-failing handle is delivered to, and
after the pass every failing handle has been removed from every symbol's
handle set (full unregister_client cleanup). -/
theorem C6_broadcast_isolation (fails : Handle → Bool) (reg : Registry)
    (s : String) :
    (broadcast_tick fails reg s).2.1 = subscribers reg s ∧
    (∀ w, w ∈ subscribers reg s → fails w = false →
      w ∈ (broadcast_tick fails reg s).2.2) ∧
    (∀ w, w ∈ subscribers reg s → fails w = true →
      ∀ e ∈ (broadcast_tick fails reg s).1, w ∉ e.2) := by
  cases h : dictGet reg s with
  | none =>
      refine ⟨by simp [broadcast_tick, subscribers, h], ?_, ?_⟩ <;>
        · intro w hw
          simp [subscribers, h] at hw
  | some hs =>
      refine ⟨by simp [broadcast_tick, subscribers, h], ?_, ?_⟩
      · intro w hw hf
        have hw' : w ∈ hs := by simpa [subscribers, h] using hw
        simp [broadcast_tick, h, List.mem_filter, hw', hf]
      · intro w hw hf e he
        have hw' : w ∈ hs := by simpa [subscribers, h] using hw
        have hmem : w ∈ hs.filter (fun v => fails v) := by
          simp [List.mem_filter, hw', hf]
        refine foldl_unregister_mem (hs.filter (fun v => fails v)) w reg hmem e ?_
        simpa [broadcast_tick, h] using he

/-- C6 (witness): a two-symbol registry where handle 1 fails: handle 0
still gets its delivery and handle 1 is gone from every symbol
afterward. -/
theorem C6_witness :
    (1 : Handle) ∈ subscribers [("EURUSD", [0, 1]), ("GBPUSD", [1])] "EURUSD" ∧
    (0 : Handle) ∈ (broadcast_tick (fun v => v == 1)
        [("EURUSD", [0, 1]), ("GBPUSD", [1])] "EURUSD").2.2 ∧
    (1 : Handle) ∉ ([0] : List Handle) :=
  ⟨by decide,
   (C6_broadcast_isolation (fun v => v == 1)
       [("EURUSD", [0, 1]), ("GBPUSD", [1])] "EURUSD").2.1 0 (by decide) rfl,
   (C6_broadcast_isolation (fun v => v == 1)
       [("EURUSD", [0, 1]), ("GBPUSD", [1])] "EURUSD").2.2 1 (by decide) rfl
     ("EURUSD", [0]) (by decide)⟩

/-- The ConnectionManager.disconnect operation preserves the non-empty
handle set invariant. -/
theorem registryInv_api_disconnect (subs : Registry) (w : Handle)
    (hinv : registryInv subs) : registryInv (api_disconnect subs w) := by
  induction subs with
  | nil => intro e he; simp [api_disconnect] at he
  | cons a rest ih =>
      intro e he
      by_cases hw : w ∈ a.2
      · by_cases hc : removeFirst a.2 w = []
        · rw [api_disconnect, if_pos hw, if_pos hc] at he
          exact ih (fun x hx => hinv x (List.mem_cons_of_mem a hx)) e he
        · rw [api_disconnect, if_pos hw, if_neg hc] at he
          rcases List.mem_cons.mp he with h1 | h1
          · subst h1; exact hc
          · exact ih (fun x hx => hinv x (List.mem_cons_of_mem a hx)) e h1
      · rw [api_disconnect, if_neg hw] at he
        rcases List.mem_cons.mp he with h1 | h1
        · subst h1; exact hinv e (List.mem_cons_self e rest)
        · exact ih (fun x hx => hinv x (List.mem_cons_of_mem a hx)) e h1

/-- After ConnectionManager.subscribe the websocket is in the symbol's
list. -/
theorem mem_api_subscribe (subs : Registry) (w : Handle) (s : String) :
    w ∈ subscribers (api_subscribe subs w s) s := by
  rw [api_subscribe_eq]
  by_cases hw : w ∈ subscribers subs s
  · simp [hw]
  · rw [if_neg hw]
    simp [subscribers, dictGet_dictSet_self]

/-- C7 (counterexample): the API endpoint's inline unsubscribe removes the
last handle of a symbol without deleting the key, leaving an entry with an
empty handle set — the invariant the claim asserts is not preserved by
every unsubscribe operation. -/
theorem C7_counterexample :
    (websocket_endpoint_handle [("EURUSD", [0])] 0 (some "unsubscribe")
        (some "EURUSD")).1 = [("EURUSD", [])] ∧
    ¬ registryInv [("EURUSD", ([] : List Handle))] :=
  ⟨rfl, fun h => h ("EURUSD", []) (List.mem_cons_self _ _) rfl⟩

/-- C7 (amended): the invariant is preserved by the standalone server's
subscribe, unsubscribe and unregister operations and by the API manager's
subscribe and disconnect operations, and the standalone unsubscribe that
removes the last handle also removes the key; but the API endpoint's
inline unsubscribe removes a last handle while keeping the key with an
empty list. -/
theorem C7_registry_invariant (p : Provider) (reg subs : Registry)
    (w : Handle) (s : String)
    (hreg : registryInv reg) (hsubs : registryInv subs) :
    registryInv (subscribe_symbol p reg w s).1 ∧
    registryInv (unsubscribe_symbol reg w s).1 ∧
    registryInv (unregister_client reg w) ∧
    registryInv (api_subscribe subs w s) ∧
    registryInv (api_disconnect subs w) ∧
    (dictGet reg s = some [w] →
      dictGet (unsubscribe_symbol reg w s).1 s = none) ∧
    (s ≠ "" → dictGet subs s = some [w] →
      dictGet (websocket_endpoint_handle subs w (some "unsubscribe")
          (some s)).1 s = some []) := by
  refine ⟨?_, ?_, registryInv_unregister reg w, ?_,
    registryInv_api_disconnect subs w hsubs, ?_, ?_⟩
  · rw [subscribe_reg_eq]
    by_cases hw : w ∈ subscribers reg s
    · rwa [if_pos hw]
    · rw [if_neg hw]
      exact registryInv_dictSet reg s _ hreg (by simp)
  · cases h : dictGet reg s with
    | none => simpa [unsubscribe_symbol, h] using hreg
    | some hs =>
        by_cases hc : hs.filter (fun v => v ≠ w) = []
        · simp only [unsubscribe_symbol, h, if_pos hc]
          exact registryInv_dictDel reg s hreg
        · simp only [unsubscribe_symbol, h, if_neg hc]
          exact registryInv_dictSet reg s _ hreg hc
  · rw [api_subscribe_eq]
    by_cases hw : w ∈ subscribers subs s
    · rwa [if_pos hw]
    · rw [if_neg hw]
      exact registryInv_dictSet subs s _ hsubs (by simp)
  · intro h
    have hc : ([w] : List Handle).filter (fun v => v ≠ w) = [] := by simp
    simp only [unsubscribe_symbol, h, if_pos hc]
    exact dictGet_dictDel_self reg s
  · intro h3 h
    simp [websocket_endpoint_handle, truthy, h3, h, removeFirst,
      dictGet_dictSet_self]

/-- C7 (witness): the amended statement instantiated at a one-entry
registry on both transports. -/
theorem C7_witness :
    registryInv [("EURUSD", [0])] ∧
    (registryInv (subscribe_symbol allKnownProvider [("EURUSD", [0])] 0
        "EURUSD").1 ∧
     registryInv (unsubscribe_symbol [("EURUSD", [0])] 0 "EURUSD").1 ∧
     registryInv (unregister_client [("EURUSD", [0])] 0) ∧
     registryInv (api_subscribe [("EURUSD", [0])] 0 "EURUSD") ∧
     registryInv (api_disconnect [("EURUSD", [0])] 0) ∧
     (dictGet [("EURUSD", [0])] "EURUSD" = some [0] →
       dictGet (unsubscribe_symbol [("EURUSD", [0])] 0 "EURUSD").1 "EURUSD"
         = none) ∧
     ("EURUSD" ≠ "" → dictGet [("EURUSD", [0])] "EURUSD" = some [0] →
       dictGet (websocket_endpoint_handle [("EURUSD", [0])] 0
           (some "unsubscribe") (some "EURUSD")).1 "EURUSD" = some [])) :=
  ⟨fun e he => by simp [List.mem_singleton.mp he],
   C7_registry_invariant allKnownProvider [("EURUSD", [0])] [("EURUSD", [0])]
     0 "EURUSD"
     (fun e he => by simp [List.mem_singleton.mp he])
     (fun e he => by simp [List.mem_singleton.mp he])⟩

/-- C8 (counterexample): an inbound frame that parses as JSON but is not
an object (a list or a bare literal) is malformed, yet handle_message
raises (only json.JSONDecodeError is caught, and data.get raises
AttributeError on a non-dict), so no error reply is sent and handle_client
tears the connection down. -/
theorem C8_counterexample :
    handle_message allKnownProvider [] 0 Inbound.nonObject = HResult.raises ∧
    connectionStaysOpen
      (handle_message allKnownProvider [] 0 Inbound.nonObject) = false :=
  ⟨rfl, rfl⟩

/-- C8 (amended): a frame that fails JSON parsing gets the invalid-JSON
error reply and the connection stays open; a frame that parses to a
non-object value instead raises out of handle_message, so the connection
is torn down without an error reply. -/
theorem C8_malformed (p : Provider) (reg : Registry) (w : Handle) :
    handle_message p reg w .notJson =
      .ok reg [Msg.error "Invalid JSON message"] ∧
    connectionStaysOpen (handle_message p reg w .notJson) = true ∧
    handle_message p reg w .nonObject = .raises :=
  ⟨rfl, rfl, rfl⟩

/-- C9 (confirmed): unsubscribe immediately followed by subscribe leaves
the handle registered exactly once, and subscribing an already-present
pair changes nothing, on both the standalone registry and the API
manager. -/
theorem C9_idempotent (p : Provider) (reg subs : Registry) (w : Handle)
    (s : String) :
    (subscribers (subscribe_symbol p (unsubscribe_symbol reg w s).1 w s).1
        s).count w = 1 ∧
    (subscribe_symbol p (subscribe_symbol p reg w s).1 w s).1 =
      (subscribe_symbol p reg w s).1 ∧
    api_subscribe (api_subscribe subs w s) w s = api_subscribe subs w s := by
  refine ⟨?_, ?_, ?_⟩
  · have hnot := not_mem_unsubscribe_reg reg w s
    rw [subscribe_reg_eq, if_neg hnot]
    simp only [subscribers, dictGet_dictSet_self, Option.getD_some]
    rw [List.count_append]
    have h0 : ((dictGet (unsubscribe_symbol reg w s).1 s).getD []).count w = 0 :=
      List.count_eq_zero.mpr hnot
    simp [h0]
  · rw [subscribe_reg_eq p (subscribe_symbol p reg w s).1 w s,
      if_pos (mem_subscribe_reg p reg w s)]
  · rw [api_subscribe_eq (api_subscribe subs w s) w s,
      if_pos (mem_api_subscribe subs w s)]

/-- C10 (confirmed): a subscribe or unsubscribe message whose symbol field
is missing or empty produces no reply and no registry change, and the
connection stays open, on both transports. -/
theorem C10_falsy_symbol (p : Provider) (reg subs : Registry) (w : Handle)
    (ty sym : Option String)
    (hty : ty = some "subscribe" ∨ ty = some "unsubscribe")
    (hsym : truthy sym = false) :
    handle_message p reg w (.obj ty sym) = .ok reg [] ∧
    connectionStaysOpen (handle_message p reg w (.obj ty sym)) = true ∧
    websocket_endpoint_handle subs w ty sym = (subs, []) := by
  rcases hty with h | h <;> subst h
  · have hm : handle_message p reg w (.obj (some "subscribe") sym) =
        .ok reg [] := by simp [handle_message, hsym]
    exact ⟨hm, by rw [hm]; rfl, by simp [websocket_endpoint_handle, hsym]⟩
  · have hm : handle_message p reg w (.obj (some "unsubscribe") sym) =
        .ok reg [] := by simp [handle_message, hsym]
    exact ⟨hm, by rw [hm]; rfl, by simp [websocket_endpoint_handle, hsym]⟩

/-- C10 (witness): a subscribe with an empty symbol string on both
transports. -/
theorem C10_witness :
    truthy (some "") = false ∧
    (handle_message allKnownProvider [] 0 (.obj (some "subscribe") (some ""))
        = .ok [] [] ∧
     connectionStaysOpen (handle_message allKnownProvider [] 0
        (.obj (some "subscribe") (some ""))) = true ∧
     websocket_endpoint_handle [] 0 (some "subscribe") (some "") = ([], [])) :=
  ⟨rfl, C10_falsy_symbol allKnownProvider [] [] 0 (some "subscribe") (some "")
      (Or.inl rfl) rfl⟩
